import Mathlib

/-!
Verification development for the restaurant-reservation engine
(availability calculation, transactional slot reservation, and the
reservation status lifecycle).

The stateful TypeScript services are embedded shallowly: the Firestore
state is an explicit `DB` value, every operation is a pure function from
the old state to `Except EngineError (result × DB)`, and a thrown error
corresponds to the `Except.error` case, in which no writes are applied
(the services run their writes inside a single transaction / single
update, so an abort leaves the store untouched).

Definitions are translated from
`functions/src/services/availability.service.ts` and
`functions/src/services/reservation.service.ts`.  Helpers that those
services import but whose sources are not part of the repository
snapshot (`settings.service`, `utils/dates`, `utils/errors`,
`config/constants`) are modelled from the specification and marked as
such in their doc comments.
-/

namespace Reservations

/-- Seating categories of the restaurant (`SeatingType` in `types`). -/
inductive SeatingType where
  | indoor
  | balcony
deriving DecidableEq

/-- Reservation lifecycle states (`ReservationStatus` in `types`). -/
inductive ReservationStatus where
  | pending
  | confirmed
  | seated
  | completed
  | cancelled
  | noShow
deriving DecidableEq

/-- String form of a status, as it appears in Firestore documents. -/
def statusToString : ReservationStatus → String
  | .pending => "pending"
  | .confirmed => "confirmed"
  | .seated => "seated"
  | .completed => "completed"
  | .cancelled => "cancelled"
  | .noShow => "no-show"

/-- String form of a seating type, used in the slot-lock document id. -/
def seatingTypeToString : SeatingType → String
  | .indoor => "indoor"
  | .balcony => "balcony"

/-- Milliseconds per calendar day.  Instants are modelled as natural
numbers of milliseconds since the epoch, with day boundaries at
multiples of this constant (the spec requires a canonical date key with
no timezone drift). -/
def msPerDay : Nat := 86400000

/-- Modelled from the spec: `getStartOfDay` from `utils/dates` (not in
the sources) — the first instant of the calendar day containing `t`. -/
def getStartOfDay (t : Nat) : Nat := t / msPerDay * msPerDay

/-- Modelled from the spec: `getEndOfDay` from `utils/dates` (not in the
sources) — the last millisecond of the calendar day containing `t`. -/
def getEndOfDay (t : Nat) : Nat := getStartOfDay t + (msPerDay - 1)

/-- Modelled from the spec: `formatDateKey` from `utils/dates` (not in
the sources) — the canonical key of the calendar day containing `t`
(a day index; the source renders it as a string, which is injective in
the day, so the index itself serves as the key). -/
def formatDateKey (t : Nat) : Nat := t / msPerDay

/-- Stored reservation document.  `partySize` is an `Option` because a
stored document may lack the field (the services read it with
`partySize || 0`). -/
structure ReservationDoc where
  guestName : String
  email : String
  phone : String
  partySize : Option Int
  date : Nat
  time : String
  seatingType : SeatingType
  status : ReservationStatus
  specialRequests : Option String
  createdAt : Nat
  updatedAt : Nat
  cancelledAt : Option Nat
  cancellationReason : Option String
deriving DecidableEq

/-- Slot-lock document (`slot-locks` collection): records the last
committing reservation id and its timestamp for one slot key. -/
structure SlotLock where
  lastReservationId : String
  lastReservationAt : Nat
deriving DecidableEq

/-- The Firestore state visible to the engine: the `reservations`
collection (id ↦ document), the `slot-locks` collection (key ↦ lock),
and the `blocked-dates` collection (date key ↦ reason). -/
structure DB where
  reservations : List (String × ReservationDoc)
  slotLocks : List (String × SlotLock)
  blockedDates : List (Nat × String)
deriving DecidableEq

/-- Modelled from the spec: the Settings Provider (`settings.service`
is not in the sources) — per-category capacity, configured time slots,
booking-window length and cancellation-window length. -/
structure Settings where
  indoorCapacity : Int
  balconyCapacity : Int
  timeSlots : List String
  maxAdvanceBookingDays : Nat
  cancellationWindowHours : Int
deriving DecidableEq

/-- Modelled from the spec: `getCapacity(seatingType)` of the Settings
Provider. -/
def getCapacity (s : Settings) : SeatingType → Int
  | .indoor => s.indoorCapacity
  | .balcony => s.balconyCapacity

/-- Result of a single-slot availability query (`AvailabilityResult`). -/
structure AvailabilityResult where
  available : Bool
  remainingCapacity : Int
  totalCapacity : Int
  bookedCount : Int
deriving DecidableEq

/-- One per-slot entry of a daily availability answer (`TimeSlot`). -/
structure TimeSlot where
  time : String
  availableIndoor : Int
  availableBalcony : Int
  isAvailable : Bool
deriving DecidableEq

/-- Daily availability answer (`DailyAvailability`).  The source returns
the date as an ISO string; the instant itself is kept here. -/
structure DailyAvailability where
  date : Nat
  timeSlots : List TimeSlot
  isBlocked : Bool
  notes : Option String
deriving DecidableEq

/-- Modelled from the spec: the error classes of `utils/errors` (not in
the sources).  Each constructor carries the data its message is built
from: `resourceExhausted` carries the remaining-seat count shown to the
caller (already clamped at 0 by the throw site), `preconditionFailed`
carries the required window in hours and the actual remaining hours
floored to a whole number. -/
inductive EngineError where
  | validation (msg : String)
  | notFound (msg : String)
  | resourceExhausted (remainingShown : Int)
  | preconditionFailed (windowHours : Int) (flooredHoursUntil : Int)
deriving DecidableEq

/-- Reading of the `partySize` field as the services do:
`doc.data().partySize || 0` maps a missing or null field to 0 (and the
number 0 to itself). -/
def partySizeOrZero : Option Int → Int
  | none => 0
  | some v => v

/-- The status list of the Firestore query
`where('status', 'in', ['confirmed', 'pending', 'seated'])`. -/
def occupyingStatuses : List ReservationStatus :=
  [.confirmed, .pending, .seated]

/-- Predicate of the slot query shared by `calculateSlotAvailability`
and `checkAndReserveSlot`: date within the day of `date`, exact `time`,
exact `seatingType`, status among the occupying statuses. -/
def matchesSlotQuery (date : Nat) (time : String) (st : SeatingType)
    (r : ReservationDoc) : Bool :=
  decide (getStartOfDay date ≤ r.date) && decide (r.date ≤ getEndOfDay date)
    && (r.time == time) && (r.seatingType == st)
    && (occupyingStatuses.contains r.status)

/-- The booked count of a slot: the query above followed by
`reduce((sum, doc) => sum + (doc.data().partySize || 0), 0)`. -/
def bookedCountList (l : List (String × ReservationDoc)) (date : Nat)
    (time : String) (st : SeatingType) : Int :=
  ((l.filter (fun p => matchesSlotQuery date time st p.2)).map
    (fun p => partySizeOrZero p.2.partySize)).foldl (· + ·) 0

/-- Booked count read from the database state. -/
def bookedCountFor (db : DB) (date : Nat) (time : String)
    (st : SeatingType) : Int :=
  bookedCountList db.reservations date time st

/-- Embedding of `calculateSlotAvailability` from
`availability.service.ts`. -/
def calculateSlotAvailability (s : Settings) (db : DB) (date : Nat)
    (time : String) (st : SeatingType) : AvailabilityResult :=
  let totalCapacity := getCapacity s st
  let bookedCount := bookedCountFor db date time st
  let remainingCapacity := max 0 (totalCapacity - bookedCount)
  { available := decide (0 < remainingCapacity)
    remainingCapacity := remainingCapacity
    totalCapacity := totalCapacity
    bookedCount := bookedCount }

/-- Embedding of `getDailyAvailability` from `availability.service.ts`:
a blocked date short-circuits to an empty slot list; otherwise one
`TimeSlot` per configured slot, with per-category remaining capacities. -/
def getDailyAvailability (s : Settings) (db : DB) (date : Nat) :
    DailyAvailability :=
  let dateKey := formatDateKey date
  match db.blockedDates.lookup dateKey with
  | some reason =>
      { date := date, timeSlots := [], isBlocked := true,
        notes := some reason }
  | none =>
      let timeSlots := s.timeSlots.map (fun time =>
        let indoorAvailability := calculateSlotAvailability s db date time .indoor
        let balconyAvailability := calculateSlotAvailability s db date time .balcony
        { time := time
          availableIndoor := indoorAvailability.remainingCapacity
          availableBalcony := balconyAvailability.remainingCapacity
          isAvailable :=
            decide (0 < indoorAvailability.remainingCapacity)
              || decide (0 < balconyAvailability.remainingCapacity) })
      { date := date, timeSlots := timeSlots, isBlocked := false,
        notes := none }

/-- Document id of the slot lock for a slot key, as built in
`checkAndReserveSlot`. -/
def slotLockKey (date : Nat) (time : String) (st : SeatingType) : String :=
  toString (formatDateKey date) ++ "_" ++ time ++ "_" ++ seatingTypeToString st

/-- Upsert of the slot-lock document (`transaction.set` with merge
semantics; the lock document has exactly the two fields written, so the
merge replaces the record). -/
def setSlotLock : List (String × SlotLock) → String → SlotLock →
    List (String × SlotLock)
  | [], k, v => [(k, v)]
  | (k', v') :: rest, k, v =>
      if k' = k then (k, v) :: rest else (k', v') :: setSlotLock rest k v

/-- Embedding of `checkAndReserveSlot` from `availability.service.ts`.
The Firestore transaction is a single atomic unit; its serialized
effect is this function, with `newId` the fresh document id and `now`
the server timestamp.  Throwing `ResourceExhaustedError` aborts the
transaction, so the error case carries no state. -/
def checkAndReserveSlot (s : Settings) (db : DB) (newId : String)
    (now : Nat) (date : Nat) (time : String) (st : SeatingType)
    (partySize : Int) (reservationData : ReservationDoc) :
    Except EngineError (String × DB) :=
  let lockKey := slotLockKey date time st
  let totalCapacity := getCapacity s st
  let bookedCount := bookedCountFor db date time st
  let remainingCapacity := totalCapacity - bookedCount
  if remainingCapacity < partySize then
    .error (.resourceExhausted (max 0 remainingCapacity))
  else
    .ok (newId,
      { db with
        reservations := db.reservations ++ [(newId, reservationData)]
        slotLocks := setSlotLock db.slotLocks lockKey
          { lastReservationId := newId, lastReservationAt := now } })

/-- Modelled from the spec: `isDateWithinBookingWindow` of the Settings
Provider (not in the sources) — the requested calendar date lies
between today and today plus the configured advance-booking days. -/
def isDateWithinBookingWindow (s : Settings) (now : Nat) (date : Nat) : Bool :=
  decide (formatDateKey now ≤ formatDateKey date)
    && decide (formatDateKey date ≤ formatDateKey now + s.maxAdvanceBookingDays)

/-- Input of `createReservation` (`CreateReservationInput` in `types`). -/
structure CreateReservationInput where
  guestName : String
  email : String
  phone : String
  partySize : Int
  date : Nat
  time : String
  seatingType : SeatingType
  specialRequests : Option String
deriving DecidableEq

/-- The reservation document built by `createReservation` before it is
handed to `checkAndReserveSlot`: the input fields, status `confirmed`,
fresh `createdAt`/`updatedAt` timestamps. -/
def mkReservationDoc (now : Nat) (input : CreateReservationInput) :
    ReservationDoc :=
  { guestName := input.guestName
    email := input.email
    phone := input.phone
    partySize := some input.partySize
    date := input.date
    time := input.time
    seatingType := input.seatingType
    status := .confirmed
    specialRequests := input.specialRequests
    createdAt := now
    updatedAt := now
    cancelledAt := none
    cancellationReason := none }

/-- Embedding of `createReservation` from `reservation.service.ts`:
booking-window validation, then delegation to `checkAndReserveSlot`;
on success the created document is read back and returned with its id. -/
def createReservation (s : Settings) (db : DB) (newId : String)
    (now : Nat) (input : CreateReservationInput) :
    Except EngineError (String × ReservationDoc × DB) :=
  if !(isDateWithinBookingWindow s now input.date) then
    .error (.validation "Date is outside the allowed booking window")
  else
    let reservationData := mkReservationDoc now input
    match checkAndReserveSlot s db newId now input.date input.time
        input.seatingType input.partySize reservationData with
    | .error e => .error e
    | .ok (id, db') => .ok (id, reservationData, db')

/-- Resulting state of a `createReservation` call: the new state on
success, the unchanged state on any failure (the transaction aborts
without writes). -/
def applyCreate (s : Settings) (db : DB) (newId : String) (now : Nat)
    (input : CreateReservationInput) : DB :=
  match createReservation s db newId now input with
  | .ok out => out.2.2
  | .error _ => db

/-- One creation request in a serialized commit history. -/
structure CreateReq where
  newId : String
  now : Nat
  input : CreateReservationInput
deriving DecidableEq

/-- Serialized effect of a sequence of committed `createReservation`
calls, in transaction-commit order (Firestore serializes the
conflicting transactions; each commit observes the state left by the
previous one). -/
def runCreates (s : Settings) (db : DB) (reqs : List CreateReq) : DB :=
  reqs.foldl (fun acc r => applyCreate s acc r.newId r.now r.input) db

/-- Modelled from the spec: `ALLOWED_STATUS_TRANSITIONS` from
`config/constants` (not in the sources).  The spec fixes that
`cancelled`, `completed` and `no-show` are terminal (no outbound
transitions), that `confirmed` is the creation status, and that
`pending` stays reachable through other transitions; the live states
carry the lifecycle transitions. -/
def ALLOWED_STATUS_TRANSITIONS : ReservationStatus → List ReservationStatus
  | .pending => [.confirmed, .cancelled, .noShow]
  | .confirmed => [.pending, .seated, .completed, .cancelled, .noShow]
  | .seated => [.completed, .cancelled, .noShow]
  | .completed => []
  | .cancelled => []
  | .noShow => []

/-- Embedding of `validateStatusTransition` from
`reservation.service.ts`. -/
def validateStatusTransition (currentStatus newStatus : ReservationStatus) :
    Bool :=
  (ALLOWED_STATUS_TRANSITIONS currentStatus).contains newStatus

/-- Embedding of `getReservation` from `reservation.service.ts`. -/
def getReservation (db : DB) (reservationId : String) :
    Except EngineError ReservationDoc :=
  match db.reservations.lookup reservationId with
  | none => .error (.notFound "Reservation not found")
  | some r => .ok r

/-- The document update applied by `updateReservationStatus`: the new
status and a fresh `updatedAt`; on transition to `cancelled` also
`cancelledAt` and, when given, the cancellation reason (a Firestore
`update` leaves the untouched fields as they were). -/
def updatedReservationDoc (r : ReservationDoc) (now : Nat)
    (newStatus : ReservationStatus) (cancellationReason : Option String) :
    ReservationDoc :=
  { r with
    status := newStatus
    updatedAt := now
    cancelledAt := if newStatus = .cancelled then some now else r.cancelledAt
    cancellationReason :=
      if newStatus = .cancelled then
        match cancellationReason with
        | some reason => some reason
        | none => r.cancellationReason
      else r.cancellationReason }

/-- Replacement of one reservation document by id. -/
def setReservation (l : List (String × ReservationDoc)) (id : String)
    (doc : ReservationDoc) : List (String × ReservationDoc) :=
  l.map (fun p => if p.1 = id then (id, doc) else p)

/-- Embedding of `updateReservationStatus` from
`reservation.service.ts`. -/
def updateReservationStatus (db : DB) (now : Nat) (reservationId : String)
    (newStatus : ReservationStatus) (cancellationReason : Option String) :
    Except EngineError (ReservationDoc × DB) :=
  match db.reservations.lookup reservationId with
  | none => .error (.notFound "Reservation not found")
  | some r =>
      if !(validateStatusTransition r.status newStatus) then
        let a := statusToString r.status
        let b := statusToString newStatus
        .error (.validation ("Cannot transition from " ++ a ++ " to " ++ b))
      else
        let newDoc := updatedReservationDoc r now newStatus cancellationReason
        .ok (newDoc,
          { db with reservations := setReservation db.reservations reservationId newDoc })

/-- Resulting state of an `updateReservationStatus` call: unchanged on
any failure. -/
def applyUpdateStatus (db : DB) (now : Nat) (reservationId : String)
    (newStatus : ReservationStatus) (cancellationReason : Option String) : DB :=
  match updateReservationStatus db now reservationId newStatus cancellationReason with
  | .ok out => out.2
  | .error _ => db

/-- Modelled from the spec: `getHoursBetween` from `utils/dates` (not in
the sources) — the exact (fractional) number of hours from the first
instant to the second. -/
def getHoursBetween (a b : Nat) : ℚ :=
  ((b : ℚ) - (a : ℚ)) / 3600000

/-- Embedding of `cancelReservation` from `reservation.service.ts`:
status gate first, then the cancellation-window check, then delegation
to `updateReservationStatus` with target `cancelled`. -/
def cancelReservation (s : Settings) (db : DB) (now : Nat)
    (reservationId : String) (cancellationReason : Option String) :
    Except EngineError (ReservationDoc × DB) :=
  match db.reservations.lookup reservationId with
  | none => .error (.notFound "Reservation not found")
  | some r =>
      if r.status = .cancelled then
        .error (.validation "Reservation is already cancelled")
      else if r.status = .completed ∨ r.status = .noShow then
        .error (.validation
          ("Cannot cancel a reservation with status: " ++ statusToString r.status))
      else
        let hoursUntilReservation := getHoursBetween now r.date
        let cancellationWindow := s.cancellationWindowHours
        if hoursUntilReservation < (cancellationWindow : ℚ) then
          .error (.preconditionFailed cancellationWindow
            (Rat.floor hoursUntilReservation))
        else
          updateReservationStatus db now reservationId .cancelled cancellationReason

/-- Reading of an optional numeric filter as the service does with
`filters?.limit || 50`: a missing value or 0 falls back to the
default. -/
def jsOrNat (o : Option Nat) (d : Nat) : Nat :=
  match o with
  | none => d
  | some 0 => d
  | some n => n

/-- Filters of `listReservations`. -/
structure ListFilters where
  status : Option ReservationStatus
  date : Option Nat
  email : Option String
  seatingType : Option SeatingType
  limit : Option Nat
  offset : Option Nat
deriving DecidableEq

/-- Insertion step of the date-descending ordering (`orderBy('date',
'desc')`). -/
def insertByDateDesc (p : String × ReservationDoc) :
    List (String × ReservationDoc) → List (String × ReservationDoc)
  | [] => [p]
  | q :: rest =>
      if q.2.date ≤ p.2.date then p :: q :: rest
      else q :: insertByDateDesc p rest

/-- Date-descending sort of the reservation collection. -/
def sortByDateDesc : List (String × ReservationDoc) →
    List (String × ReservationDoc)
  | [] => []
  | p :: rest => insertByDateDesc p (sortByDateDesc rest)

/-- Conjunction of the optional `where` clauses of `listReservations`:
exact status, same calendar day, exact email, exact seating type. -/
def matchesListFilters (filters : ListFilters) (r : ReservationDoc) : Bool :=
  (match filters.status with
   | none => true
   | some st => r.status == st)
  && (match filters.date with
      | none => true
      | some d => decide (getStartOfDay d ≤ r.date) && decide (r.date ≤ getEndOfDay d))
  && (match filters.email with
      | none => true
      | some e => r.email == e)
  && (match filters.seatingType with
      | none => true
      | some st => r.seatingType == st)

/-- Embedding of `listReservations` from `reservation.service.ts`:
order by date descending, apply the filters, skip `offset` results,
return at most `limit` (default 50) of them, and report `total` as the
size of the returned snapshot. -/
def listReservations (db : DB) (filters : ListFilters) :
    List (String × ReservationDoc) × Nat :=
  let limit := jsOrNat filters.limit 50
  let offset := jsOrNat filters.offset 0
  let page :=
    ((((sortByDateDesc db.reservations).filter
      (fun p => matchesListFilters filters p.2)).drop offset).take limit)
  (page, page.length)

/-- Resulting state of a `checkAndReserveSlot` call: the new state on
success, the unchanged state when the transaction aborts. -/
def applyReserve (s : Settings) (db : DB) (newId : String) (now : Nat)
    (date : Nat) (time : String) (st : SeatingType) (partySize : Int)
    (reservationData : ReservationDoc) : DB :=
  match checkAndReserveSlot s db newId now date time st partySize reservationData with
  | .ok out => out.2
  | .error _ => db

deriving instance DecidableEq for Except

/-- Shape of an operation's outcome: success with the payload erased,
or the exact error.  Two calls with equal shapes make the same
decision and report the same error data. -/
def resultShape {α : Type} : Except EngineError α → Except EngineError Unit
  | .ok _ => .ok ()
  | .error e => .error e

/-- Specification-side matching predicate: same calendar date (equal
date keys), exact time and seating type, and an occupying status
(`confirmed`, `pending` or `seated`). -/
def specMatches (date : Nat) (time : String) (st : SeatingType)
    (r : ReservationDoc) : Prop :=
  formatDateKey r.date = formatDateKey date ∧ r.time = time ∧
    r.seatingType = st ∧
    (r.status = .confirmed ∨ r.status = .pending ∨ r.status = .seated)

instance (date : Nat) (time : String) (st : SeatingType)
    (r : ReservationDoc) : Decidable (specMatches date time st r) := by
  unfold specMatches
  infer_instance

/-- Specification-side booked count: the sum of `partySize` over
exactly the reservations matching the slot with an occupying status. -/
def specBookedCount (db : DB) (date : Nat) (time : String)
    (st : SeatingType) : Int :=
  ((db.reservations.filter (fun p => decide (specMatches date time st p.2))).map
    (fun p => partySizeOrZero p.2.partySize)).sum

/-- Sample operating parameters used by the concrete witnesses below. -/
def sampleSettings : Settings :=
  { indoorCapacity := 10
    balconyCapacity := 10
    timeSlots := ["18:30", "19:00"]
    maxAdvanceBookingDays := 30
    cancellationWindowHours := 2 }

/-- The empty store. -/
def emptyDB : DB :=
  { reservations := [], slotLocks := [], blockedDates := [] }

/-- A sample creation request: party of six on the balcony at 19:00 on
day five. -/
def sampleInput6 : CreateReservationInput :=
  { guestName := "Ana"
    email := "ana@example.com"
    phone := "1"
    partySize := 6
    date := 5 * msPerDay
    time := "19:00"
    seatingType := .balcony
    specialRequests := none }

/-- Two racing requests for the same slot, serialized by the store. -/
def sampleReq1 : CreateReq := { newId := "r1", now := 0, input := sampleInput6 }

/-- Second of the two racing requests. -/
def sampleReq2 : CreateReq := { newId := "r2", now := 0, input := sampleInput6 }

/-- A stored confirmed reservation ten hours after the epoch. -/
def sampleResDoc : ReservationDoc :=
  { guestName := "Bob"
    email := "bob@example.com"
    phone := "2"
    partySize := some 2
    date := 36000000
    time := "18:30"
    seatingType := .indoor
    status := .confirmed
    specialRequests := none
    createdAt := 0
    updatedAt := 0
    cancelledAt := none
    cancellationReason := none }

/-- A store holding the one confirmed reservation above. -/
def sampleDB1 : DB :=
  { reservations := [("r1", sampleResDoc)], slotLocks := [], blockedDates := [] }

/-- A store in which day five is administratively blocked. -/
def blockedDB : DB :=
  { reservations := [], slotLocks := [],
    blockedDates := [(formatDateKey (5 * msPerDay), "private event")] }

/-- An input violating the documented data-model invariant: party size
zero and a time label that is not a configured slot. -/
def badInput : CreateReservationInput :=
  { guestName := "Eve"
    email := "eve@example.com"
    phone := "3"
    partySize := 0
    date := 5 * msPerDay
    time := "99:99"
    seatingType := .indoor
    specialRequests := none }

/-- The document the sample creation request stores. -/
def balconyDoc6 : ReservationDoc := mkReservationDoc 0 sampleInput6

/-- A store in which the balcony at 19:00 on day five already holds a
confirmed party of six. -/
def db6 : DB :=
  { reservations := [("r1", balconyDoc6)], slotLocks := [], blockedDates := [] }

/-- A stored reservation in the terminal `completed` state. -/
def completedResDoc : ReservationDoc :=
  { sampleResDoc with status := .completed }

/-- A store holding only the completed reservation above. -/
def dbCompleted : DB :=
  { reservations := [("r1", completedResDoc)], slotLocks := [], blockedDates := [] }

/-- A malformed stored document: the `partySize` field is missing. -/
def malformedDoc : ReservationDoc :=
  { balconyDoc6 with partySize := none }

/-- A creation request whose date lies outside the booking window of
the sample settings. -/
def lateInput : CreateReservationInput :=
  { sampleInput6 with date := 40 * msPerDay }

/-- The start of a day is its date key scaled back to an instant. -/
theorem getStartOfDay_eq_key_mul (t : Nat) :
    getStartOfDay t = formatDateKey t * msPerDay := rfl

/-- Membership of an instant in the queried day range is the same as
equality of date keys. -/
theorem day_range_iff (d x : Nat) :
    (getStartOfDay d ≤ x ∧ x ≤ getEndOfDay d) ↔
      formatDateKey x = formatDateKey d := by
  simp only [getStartOfDay, getEndOfDay, formatDateKey, msPerDay]
  omega

/-- Membership in the query's status list is the occupying-status
disjunction. -/
theorem contains_occupyingStatuses (st : ReservationStatus) :
    occupyingStatuses.contains st = true ↔
      (st = .confirmed ∨ st = .pending ∨ st = .seated) := by
  cases st <;> decide

/-- The Firestore slot query matches a document exactly when the
specification-side predicate holds. -/
theorem matchesSlotQuery_iff (date : Nat) (time : String)
    (st : SeatingType) (r : ReservationDoc) :
    matchesSlotQuery date time st r = true ↔ specMatches date time st r := by
  simp only [matchesSlotQuery, Bool.and_eq_true, decide_eq_true_eq,
    beq_iff_eq, contains_occupyingStatuses, specMatches]
  rw [← day_range_iff]
  tauto

/-- Boolean form of the previous equivalence. -/
theorem matchesSlotQuery_eq_decide (date : Nat) (time : String)
    (st : SeatingType) (r : ReservationDoc) :
    matchesSlotQuery date time st r = decide (specMatches date time st r) := by
  rcases h : decide (specMatches date time st r) with _ | _
  · rw [Bool.eq_false_iff]
    intro hc
    rw [matchesSlotQuery_iff] at hc
    simp [hc] at h
  · rw [matchesSlotQuery_iff]
    exact of_decide_eq_true h

/-- The booked-count fold is the specification-side sum. -/
theorem bookedCountFor_eq_spec (db : DB) (date : Nat) (time : String)
    (st : SeatingType) :
    bookedCountFor db date time st = specBookedCount db date time st := by
  rw [bookedCountFor, bookedCountList, ← List.sum_eq_foldl, specBookedCount]
  congr 1
  apply congrArg
  apply List.filter_congr
  intro p _
  rw [matchesSlotQuery_eq_decide]

/-- Booked count of a concatenation splits additively. -/
theorem bookedCountList_append (l₁ l₂ : List (String × ReservationDoc))
    (date : Nat) (time : String) (st : SeatingType) :
    bookedCountList (l₁ ++ l₂) date time st =
      bookedCountList l₁ date time st + bookedCountList l₂ date time st := by
  simp only [bookedCountList, ← List.sum_eq_foldl, List.filter_append,
    List.map_append, List.sum_append]

/-- Booked count of a single document. -/
theorem bookedCountList_singleton (p : String × ReservationDoc)
    (date : Nat) (time : String) (st : SeatingType) :
    bookedCountList [p] date time st =
      if matchesSlotQuery date time st p.2 then partySizeOrZero p.2.partySize
      else 0 := by
  rcases h : matchesSlotQuery date time st p.2 with _ | _ <;>
    simp [bookedCountList, List.filter, h]

/-- The slot query depends on the date only through its date key. -/
theorem matchesSlotQuery_congr_day {d₁ d₂ : Nat}
    (h : formatDateKey d₁ = formatDateKey d₂) (time : String)
    (st : SeatingType) (r : ReservationDoc) :
    matchesSlotQuery d₁ time st r = matchesSlotQuery d₂ time st r := by
  unfold matchesSlotQuery getEndOfDay
  rw [getStartOfDay_eq_key_mul, getStartOfDay_eq_key_mul, h]

/-- The booked count depends on the date only through its date key. -/
theorem bookedCountList_congr_day {d₁ d₂ : Nat}
    (h : formatDateKey d₁ = formatDateKey d₂)
    (l : List (String × ReservationDoc)) (time : String)
    (st : SeatingType) :
    bookedCountList l d₁ time st = bookedCountList l d₂ time st := by
  unfold bookedCountList
  rw [List.filter_congr (fun p _ => matchesSlotQuery_congr_day h time st p.2)]

/-- Looking up the key just upserted returns the fresh lock record. -/
theorem lookup_setSlotLock (l : List (String × SlotLock)) (k : String)
    (v : SlotLock) : (setSlotLock l k v).lookup k = some v := by
  induction l with
  | nil => simp [setSlotLock, List.lookup]
  | cons p rest ih =>
      rw [setSlotLock]
      by_cases h : p.1 = k
      · simp [h, List.lookup]
      · have hb : (k == p.1) = false := beq_eq_false_iff_ne.mpr (Ne.symm h)
        simp only [h, if_false, List.lookup, hb]
        exact ih

/-- A successful `createReservation` commit preserves the per-key
capacity bound: the inserted document occupies exactly the key whose
capacity was re-checked inside the same transaction. -/
theorem createReservation_ok_preserves (s : Settings) (db : DB)
    (newId : String) (now : Nat) (input : CreateReservationInput)
    (out : String × ReservationDoc × DB)
    (hok : createReservation s db newId now input = .ok out)
    (hinv : ∀ d t st, bookedCountFor db d t st ≤ getCapacity s st) :
    ∀ d t st, bookedCountFor out.2.2 d t st ≤ getCapacity s st := by
  intro d t st
  simp only [createReservation] at hok
  by_cases hw : (!isDateWithinBookingWindow s now input.date) = true
  · rw [if_pos hw] at hok
    exact Except.noConfusion hok
  · rw [if_neg hw] at hok
    simp only [checkAndReserveSlot] at hok
    by_cases hc : getCapacity s input.seatingType -
        bookedCountFor db input.date input.time input.seatingType < input.partySize
    · rw [if_pos hc] at hok
      exact Except.noConfusion hok
    · rw [if_neg hc] at hok
      have hok' := Except.ok.inj hok
      subst hok'
      show bookedCountList
          (db.reservations ++ [(newId, mkReservationDoc now input)]) d t st ≤
        getCapacity s st
      rw [bookedCountList_append, bookedCountList_singleton]
      rcases hm : matchesSlotQuery d t st (mkReservationDoc now input) with _ | _
      · rw [if_neg (by simp [hm])]
        have hbase := hinv d t st
        rw [bookedCountFor] at hbase
        omega
      · rw [if_pos (by simp [hm])]
        obtain ⟨hkey, htime, hst, _⟩ := (matchesSlotQuery_iff d t st _).mp hm
        have htime' : input.time = t := htime
        have hst' : input.seatingType = st := hst
        have hkey' : formatDateKey input.date = formatDateKey d := hkey
        subst htime'
        subst hst'
        have hcongr := bookedCountList_congr_day hkey' db.reservations
          input.time input.seatingType
        rw [bookedCountFor] at hc
        rw [← hcongr]
        show bookedCountList db.reservations input.date input.time
            input.seatingType + partySizeOrZero (some input.partySize) ≤
          getCapacity s input.seatingType
        rw [partySizeOrZero]
        omega

/-- C1: for every serialized sequence of `createReservation` commits
(transaction-commit order; the Firestore transaction on the slot-lock
record serializes conflicting commits), if every slot key starts within
its total capacity then, after any prefix of the commit history, the
sum of `partySize` over all reservations committed with occupying
status for any slot key still never exceeds that key's total capacity —
in particular two racing requests for the last remaining seats cannot
both succeed. -/
theorem commitOrder_capacity_safety (s : Settings) (db : DB)
    (reqs : List CreateReq)
    (hinv : ∀ d t st, bookedCountFor db d t st ≤ getCapacity s st) :
    ∀ d t st, bookedCountFor (runCreates s db reqs) d t st ≤ getCapacity s st := by
  induction reqs generalizing db with
  | nil => exact hinv
  | cons r rest ih =>
      have hstep : ∀ d t st,
          bookedCountFor (applyCreate s db r.newId r.now r.input) d t st ≤
            getCapacity s st := by
        intro d t st
        rw [applyCreate]
        cases hcr : createReservation s db r.newId r.now r.input with
        | ok out =>
            exact createReservation_ok_preserves s db r.newId r.now r.input
              out hcr hinv d t st
        | error e => exact hinv d t st
      exact ih (applyCreate s db r.newId r.now r.input) hstep

/-- Witness for C1: two racing parties of six against an initially empty
balcony of capacity ten — after both commits are serialized, balcony
occupancy at 19:00 on day five is still at most ten. -/
theorem commitOrder_capacity_safety_witness :
    bookedCountFor (runCreates sampleSettings emptyDB [sampleReq1, sampleReq2])
      (5 * msPerDay) "19:00" .balcony ≤ getCapacity sampleSettings .balcony := by
  have hinv : ∀ d t st,
      bookedCountFor emptyDB d t st ≤ getCapacity sampleSettings st := by
    intro d t st
    have h0 : bookedCountFor emptyDB d t st = 0 := rfl
    rw [h0]
    cases st <;> decide
  exact commitOrder_capacity_safety sampleSettings emptyDB
    [sampleReq1, sampleReq2] hinv (5 * msPerDay) "19:00" .balcony

/-- C2: `checkAndReserveSlot` fails with the capacity-exhausted error
exactly when the recomputed remaining capacity is below the party size;
the error reports the remaining count clamped below at zero and the
aborted transaction leaves the store unchanged; on success exactly one
new reservation is appended and the slot lock for the key records the
new reservation's id and timestamp. -/
theorem checkAndReserveSlot_cases (s : Settings) (db : DB) (newId : String)
    (now date : Nat) (time : String) (st : SeatingType) (partySize : Int)
    (rdata : ReservationDoc) :
    (getCapacity s st - bookedCountFor db date time st < partySize →
      checkAndReserveSlot s db newId now date time st partySize rdata =
          .error (.resourceExhausted
            (max 0 (getCapacity s st - bookedCountFor db date time st)))
        ∧ applyReserve s db newId now date time st partySize rdata = db)
    ∧ (partySize ≤ getCapacity s st - bookedCountFor db date time st →
      checkAndReserveSlot s db newId now date time st partySize rdata =
          .ok (newId,
            { db with
              reservations := db.reservations ++ [(newId, rdata)]
              slotLocks := setSlotLock db.slotLocks (slotLockKey date time st)
                { lastReservationId := newId, lastReservationAt := now } })
        ∧ (setSlotLock db.slotLocks (slotLockKey date time st)
            { lastReservationId := newId, lastReservationAt := now }).lookup
              (slotLockKey date time st) =
            some { lastReservationId := newId, lastReservationAt := now }) := by
  constructor
  · intro h
    have he : checkAndReserveSlot s db newId now date time st partySize rdata =
        .error (.resourceExhausted
          (max 0 (getCapacity s st - bookedCountFor db date time st))) := by
      simp only [checkAndReserveSlot]
      rw [if_pos h]
    refine ⟨he, ?_⟩
    rw [applyReserve, he]
  · intro h
    have hnc : ¬(getCapacity s st - bookedCountFor db date time st < partySize) :=
      not_lt.mpr h
    constructor
    · simp only [checkAndReserveSlot]
      rw [if_neg hnc]
    · exact lookup_setSlotLock db.slotLocks (slotLockKey date time st)
        { lastReservationId := newId, lastReservationAt := now }

/-- Witness for C2: with six balcony seats already taken out of ten, a
second party of six gets the capacity-exhausted error reporting the
four remaining seats and the store is unchanged; on the empty store the
same request succeeds and the slot lock records the new id. -/
theorem checkAndReserveSlot_cases_witness :
    (checkAndReserveSlot sampleSettings db6 "r2" 0 (5 * msPerDay) "19:00"
        .balcony 6 balconyDoc6 =
        .error (.resourceExhausted (max 0 (getCapacity sampleSettings .balcony -
          bookedCountFor db6 (5 * msPerDay) "19:00" .balcony)))
      ∧ applyReserve sampleSettings db6 "r2" 0 (5 * msPerDay) "19:00"
          .balcony 6 balconyDoc6 = db6)
    ∧ (checkAndReserveSlot sampleSettings emptyDB "r1" 0 (5 * msPerDay) "19:00"
        .balcony 6 balconyDoc6 =
        .ok ("r1",
          { emptyDB with
            reservations := emptyDB.reservations ++ [("r1", balconyDoc6)]
            slotLocks := setSlotLock emptyDB.slotLocks
              (slotLockKey (5 * msPerDay) "19:00" .balcony)
              { lastReservationId := "r1", lastReservationAt := 0 } })
      ∧ (setSlotLock emptyDB.slotLocks (slotLockKey (5 * msPerDay) "19:00" .balcony)
          { lastReservationId := "r1", lastReservationAt := 0 }).lookup
            (slotLockKey (5 * msPerDay) "19:00" .balcony) =
          some { lastReservationId := "r1", lastReservationAt := 0 }) :=
  ⟨(checkAndReserveSlot_cases sampleSettings db6 "r2" 0 (5 * msPerDay) "19:00"
      .balcony 6 balconyDoc6).1 (by decide),
   (checkAndReserveSlot_cases sampleSettings emptyDB "r1" 0 (5 * msPerDay) "19:00"
      .balcony 6 balconyDoc6).2 (by decide)⟩

/-- Helper: the remaining capacity a slot query reports is the clamped
difference of the capacity and the specification-side occupying sum. -/
theorem remainingCapacity_eq_spec (s : Settings) (db : DB) (date : Nat)
    (time : String) (st : SeatingType) :
    (calculateSlotAvailability s db date time st).remainingCapacity =
      max 0 (getCapacity s st - specBookedCount db date time st) := by
  show max 0 (getCapacity s st - bookedCountFor db date time st) = _
  rw [bookedCountFor_eq_spec]

/-- C3: `calculateSlotAvailability` reports as `bookedCount` the sum of
`partySize` over exactly the reservations of that date, time and
seating type whose status is occupying (`confirmed`, `pending` or
`seated`; terminal statuses contribute nothing), as
`remainingCapacity` the difference to the total capacity clamped below
at zero, and `available` exactly when some capacity remains; it is a
pure read. -/
theorem calculateSlotAvailability_spec (s : Settings) (db : DB) (date : Nat)
    (time : String) (st : SeatingType) :
    (calculateSlotAvailability s db date time st).bookedCount =
        specBookedCount db date time st
    ∧ (calculateSlotAvailability s db date time st).remainingCapacity =
        max 0 (getCapacity s st - specBookedCount db date time st)
    ∧ (calculateSlotAvailability s db date time st).totalCapacity =
        getCapacity s st
    ∧ ((calculateSlotAvailability s db date time st).available = true ↔
        0 < (calculateSlotAvailability s db date time st).remainingCapacity) := by
  refine ⟨?_, remainingCapacity_eq_spec s db date time st, rfl, ?_⟩
  · show bookedCountFor db date time st = _
    exact bookedCountFor_eq_spec db date time st
  · show decide (0 < max 0 (getCapacity s st - bookedCountFor db date time st)) =
        true ↔ _
    exact decide_eq_true_iff

/-- C8: a blocked date yields `isBlocked = true`, an empty slot list
and the stored reason as notes, with no capacity computation; a
non-blocked date yields one `TimeSlot` per configured slot whose
per-category fields are the remaining capacities and whose
`isAvailable` is true exactly when either category has seats left. -/
theorem getDailyAvailability_spec (s : Settings) (db : DB) (date : Nat) :
    (∀ reason, db.blockedDates.lookup (formatDateKey date) = some reason →
      getDailyAvailability s db date =
        { date := date, timeSlots := [], isBlocked := true,
          notes := some reason })
    ∧ (db.blockedDates.lookup (formatDateKey date) = none →
      getDailyAvailability s db date =
        { date := date
          timeSlots := s.timeSlots.map (fun time =>
            { time := time
              availableIndoor :=
                max 0 (getCapacity s .indoor - specBookedCount db date time .indoor)
              availableBalcony :=
                max 0 (getCapacity s .balcony - specBookedCount db date time .balcony)
              isAvailable :=
                decide (0 < max 0 (getCapacity s .indoor -
                    specBookedCount db date time .indoor))
                  || decide (0 < max 0 (getCapacity s .balcony -
                    specBookedCount db date time .balcony)) })
          isBlocked := false
          notes := none }) := by
  constructor
  · intro reason h
    simp only [getDailyAvailability, h]
  · intro h
    simp only [getDailyAvailability, h, DailyAvailability.mk.injEq,
      true_and, and_true]
    apply List.map_congr_left
    intro time _
    rw [remainingCapacity_eq_spec s db date time .indoor,
      remainingCapacity_eq_spec s db date time .balcony]

/-- Witness for C8: on the store where day five is blocked with reason
"private event", the daily availability is the blocked record with an
empty slot list. -/
theorem getDailyAvailability_spec_witness :
    getDailyAvailability sampleSettings blockedDB (5 * msPerDay) =
      { date := 5 * msPerDay, timeSlots := [], isBlocked := true,
        notes := some "private event" } :=
  (getDailyAvailability_spec sampleSettings blockedDB (5 * msPerDay)).1
    "private event" (by decide)

/-- C9: the `total` field reported by `listReservations` is the size of
the returned page — the snapshot taken after the offset and the limit
(default 50) are applied — so it always equals the length of the
returned list and never exceeds the applied limit. -/
theorem listReservations_total_spec (db : DB) (filters : ListFilters) :
    (listReservations db filters).2 = (listReservations db filters).1.length
    ∧ (listReservations db filters).2 ≤ jsOrNat filters.limit 50 := by
  refine ⟨rfl, ?_⟩
  show (List.take (jsOrNat filters.limit 50) _).length ≤ _
  exact List.length_take_le _ _

/-- C4: for an existing reservation, a terminal or already-cancelled
status makes `cancelReservation` fail validation before any window
check; otherwise it fails with the precondition-failed error — naming
the required window hours and the remaining hours floored to whole
hours — exactly when the hours until the reservation are strictly
below the configured window, and delegates to the generic
status-transition operation with target `cancelled` when they are not. -/
theorem cancelReservation_spec (s : Settings) (db : DB) (now : Nat)
    (id : String) (reason : Option String) (r : ReservationDoc)
    (hr : db.reservations.lookup id = some r) :
    ((r.status = .cancelled ∨ r.status = .completed ∨ r.status = .noShow) →
      ∃ msg, cancelReservation s db now id reason = .error (.validation msg))
    ∧ (r.status ≠ .cancelled → r.status ≠ .completed → r.status ≠ .noShow →
      (getHoursBetween now r.date < (s.cancellationWindowHours : ℚ) →
        cancelReservation s db now id reason =
          .error (.preconditionFailed s.cancellationWindowHours
            (Rat.floor (getHoursBetween now r.date))))
      ∧ ((s.cancellationWindowHours : ℚ) ≤ getHoursBetween now r.date →
        cancelReservation s db now id reason =
          updateReservationStatus db now id .cancelled reason)) := by
  constructor
  · rintro (h | h | h)
    · refine ⟨"Reservation is already cancelled", ?_⟩
      simp only [cancelReservation, hr]
      rw [if_pos h]
    · refine ⟨"Cannot cancel a reservation with status: " ++
        statusToString r.status, ?_⟩
      simp only [cancelReservation, hr]
      rw [if_neg (by rw [h]; exact fun hc => ReservationStatus.noConfusion hc),
        if_pos (Or.inl h)]
    · refine ⟨"Cannot cancel a reservation with status: " ++
        statusToString r.status, ?_⟩
      simp only [cancelReservation, hr]
      rw [if_neg (by rw [h]; exact fun hc => ReservationStatus.noConfusion hc),
        if_pos (Or.inr h)]
  · intro h1 h2 h3
    have hsecond : ¬(r.status = .completed ∨ r.status = .noShow) := by
      rintro (h | h)
      · exact h2 h
      · exact h3 h
    constructor
    · intro hlt
      simp only [cancelReservation, hr]
      rw [if_neg h1, if_neg hsecond, if_pos hlt]
    · intro hge
      simp only [cancelReservation, hr]
      rw [if_neg h1, if_neg hsecond, if_neg (not_lt.mpr hge)]

/-- Witness for C4: the confirmed sample reservation lies ten hours
ahead of `now = 0` and the window is two hours, so cancellation
delegates to the status-transition operation with target `cancelled`. -/
theorem cancelReservation_spec_witness :
    cancelReservation sampleSettings sampleDB1 0 "r1" none =
      updateReservationStatus sampleDB1 0 "r1" .cancelled none :=
  ((cancelReservation_spec sampleSettings sampleDB1 0 "r1" none sampleResDoc
      (by decide)).2 (by decide) (by decide) (by decide)).2
    (by norm_num [getHoursBetween, sampleResDoc, sampleSettings])

/-- C5: `updateReservationStatus` fails not-found when the id is
unknown; when the reservation exists and the requested transition is
not in the adjacency table it fails validation naming both states and
leaves the store unchanged — in particular every transition out of a
terminal state fails — and when the transition is legal it writes the
new status and a fresh `updatedAt`, plus `cancelledAt` and the given
reason on transition to `cancelled`. -/
theorem updateReservationStatus_spec (db : DB) (now : Nat) (id : String)
    (newStatus : ReservationStatus) (reason : Option String) :
    (db.reservations.lookup id = none →
      updateReservationStatus db now id newStatus reason =
          .error (.notFound "Reservation not found")
        ∧ applyUpdateStatus db now id newStatus reason = db)
    ∧ (∀ r, db.reservations.lookup id = some r →
      (validateStatusTransition r.status newStatus = false →
        updateReservationStatus db now id newStatus reason =
            .error (.validation ("Cannot transition from " ++
              statusToString r.status ++ " to " ++ statusToString newStatus))
          ∧ applyUpdateStatus db now id newStatus reason = db)
      ∧ ((r.status = .cancelled ∨ r.status = .completed ∨ r.status = .noShow) →
        updateReservationStatus db now id newStatus reason =
          .error (.validation ("Cannot transition from " ++
            statusToString r.status ++ " to " ++ statusToString newStatus)))
      ∧ (validateStatusTransition r.status newStatus = true →
        updateReservationStatus db now id newStatus reason =
            .ok (updatedReservationDoc r now newStatus reason,
              { db with reservations :=
                  setReservation db.reservations id (updatedReservationDoc r now newStatus reason) })
          ∧ (updatedReservationDoc r now newStatus reason).status = newStatus
          ∧ (updatedReservationDoc r now newStatus reason).updatedAt = now
          ∧ (newStatus = .cancelled →
              (updatedReservationDoc r now newStatus reason).cancelledAt = some now)
          ∧ (∀ msg, newStatus = .cancelled → reason = some msg →
              (updatedReservationDoc r now newStatus reason).cancellationReason =
                some msg))) := by
  constructor
  · intro h
    have he : updateReservationStatus db now id newStatus reason =
        .error (.notFound "Reservation not found") := by
      simp only [updateReservationStatus, h]
    refine ⟨he, ?_⟩
    rw [applyUpdateStatus, he]
  · intro r hr
    have hillegal : validateStatusTransition r.status newStatus = false →
        updateReservationStatus db now id newStatus reason =
          .error (.validation ("Cannot transition from " ++
            statusToString r.status ++ " to " ++ statusToString newStatus)) := by
      intro hv
      simp only [updateReservationStatus, hr, hv, Bool.not_false, if_true]
    refine ⟨?_, ?_, ?_⟩
    · intro hv
      refine ⟨hillegal hv, ?_⟩
      rw [applyUpdateStatus, hillegal hv]
    · rintro (h | h | h) <;>
        exact hillegal (by rw [h]; cases newStatus <;> decide)
    · intro hv
      refine ⟨?_, rfl, rfl, ?_, ?_⟩
      · simp only [updateReservationStatus, hr, hv, Bool.not_true, if_false]
        rfl
      · intro hcancel
        simp only [updatedReservationDoc, hcancel, if_pos]
      · intro msg hcancel hmsg
        simp only [updatedReservationDoc, hcancel, hmsg, if_pos]

/-- Witness for C5: attempting to move the completed sample reservation
back to `confirmed` fails validation naming both states (a terminal
state has no outbound transitions). -/
theorem updateReservationStatus_spec_witness :
    updateReservationStatus dbCompleted 0 "r1" .confirmed none =
      .error (.validation ("Cannot transition from " ++
        statusToString ReservationStatus.completed ++ " to " ++
        statusToString ReservationStatus.confirmed)) :=
  ((updateReservationStatus_spec dbCompleted 0 "r1" .confirmed none).2
      completedResDoc (by decide)).2.1 (Or.inr (Or.inl (by decide)))

/-- Helper: `createReservation` reads the store only through the
`reservations` collection — two stores with equal reservation
collections produce outcomes of the same shape (same success/failure
decision, same error data). -/
theorem createReservation_shape_congr (s : Settings) (db₁ db₂ : DB)
    (newId : String) (now : Nat) (input : CreateReservationInput)
    (hres : db₁.reservations = db₂.reservations) :
    resultShape (createReservation s db₁ newId now input) =
      resultShape (createReservation s db₂ newId now input) := by
  have hb : bookedCountFor db₁ input.date input.time input.seatingType =
      bookedCountFor db₂ input.date input.time input.seatingType := by
    rw [bookedCountFor, bookedCountFor, hres]
  simp only [createReservation, checkAndReserveSlot]
  by_cases hw : (!isDateWithinBookingWindow s now input.date) = true
  · rw [if_pos hw, if_pos hw]
  · rw [if_neg hw, if_neg hw, hb]
    by_cases hc : getCapacity s input.seatingType -
        bookedCountFor db₂ input.date input.time input.seatingType < input.partySize
    · rw [if_pos hc, if_pos hc]
    · rw [if_neg hc, if_neg hc]
      rfl

/-- Counterexample to C6: day five is blocked, `getDailyAvailability`
reports it blocked, and yet `createReservation` for that day succeeds
and stores a reservation — the create path never consults the
BlockedDate record. -/
theorem blocked_date_create_counterexample :
    (getDailyAvailability sampleSettings blockedDB (5 * msPerDay)).isBlocked = true
    ∧ (createReservation sampleSettings blockedDB "r1" 0 sampleInput6).isOk = true
    ∧ (applyCreate sampleSettings blockedDB "r1" 0 sampleInput6).reservations.length = 1 :=
  ⟨by decide, by decide, by decide⟩

/-- C6 (amended): blocking a date affects only the read path.
`getDailyAvailability` reports the date blocked, but `createReservation`
never reads the BlockedDate record — its outcome shape is unchanged by
emptying the blocked-dates collection — and it fails validation exactly
for dates outside the booking window. -/
theorem blocked_date_amended (s : Settings) (db : DB) (newId : String)
    (now : Nat) (input : CreateReservationInput) :
    resultShape (createReservation s db newId now input) =
      resultShape (createReservation s { db with blockedDates := [] } newId now input)
    ∧ (isDateWithinBookingWindow s now input.date = false →
      createReservation s db newId now input =
        .error (.validation "Date is outside the allowed booking window"))
    ∧ (isDateWithinBookingWindow s now input.date = true →
      ∀ msg, createReservation s db newId now input ≠ .error (.validation msg))
    ∧ (∀ reason, db.blockedDates.lookup (formatDateKey input.date) = some reason →
      (getDailyAvailability s db input.date).isBlocked = true) := by
  refine ⟨createReservation_shape_congr s db { db with blockedDates := [] }
    newId now input rfl, ?_, ?_, ?_⟩
  · intro h
    simp only [createReservation]
    rw [if_pos (by rw [h]; rfl)]
  · intro hw msg hcontra
    simp only [createReservation, checkAndReserveSlot] at hcontra
    rw [if_neg (by rw [hw]; decide)] at hcontra
    by_cases hc : getCapacity s input.seatingType -
        bookedCountFor db input.date input.time input.seatingType < input.partySize
    · rw [if_pos hc] at hcontra
      exact EngineError.noConfusion (Except.error.inj hcontra)
    · rw [if_neg hc] at hcontra
      exact Except.noConfusion hcontra
  · intro reason h
    simp only [getDailyAvailability, h]

/-- Witness for the amended C6: an out-of-window date fails validation,
an in-window create on the blocked sample day cannot fail validation,
and the blocked sample day is reported blocked. -/
theorem blocked_date_amended_witness :
    createReservation sampleSettings blockedDB "r1" 0 lateInput =
      .error (.validation "Date is outside the allowed booking window")
    ∧ createReservation sampleSettings blockedDB "r1" 0 sampleInput6 ≠
        .error (.validation "Date is outside the allowed booking window")
    ∧ (getDailyAvailability sampleSettings blockedDB sampleInput6.date).isBlocked = true :=
  ⟨(blocked_date_amended sampleSettings blockedDB "r1" 0 lateInput).2.1 (by decide),
   (blocked_date_amended sampleSettings blockedDB "r1" 0 sampleInput6).2.2.1
     (by decide) "Date is outside the allowed booking window",
   (blocked_date_amended sampleSettings blockedDB "r1" 0 sampleInput6).2.2.2
     "private event" (by decide)⟩

/-- Counterexample to C7: `createReservation` accepts a party size of
zero and a time label that is not a configured slot, and stores the
offending document — the data-model invariant is not enforced on the
create path. -/
theorem invariant_violation_counterexample :
    createReservation sampleSettings emptyDB "r1" 0 badInput =
      .ok ("r1", mkReservationDoc 0 badInput,
        { emptyDB with
          reservations := [("r1", mkReservationDoc 0 badInput)]
          slotLocks := [(slotLockKey (5 * msPerDay) "99:99" .indoor,
            { lastReservationId := "r1", lastReservationAt := 0 })] })
    ∧ (mkReservationDoc 0 badInput).partySize = some 0
    ∧ sampleSettings.timeSlots.contains "99:99" = false :=
  ⟨by decide, rfl, by decide⟩

/-- C7 (amended): the create path enforces only the booking window and
the capacity admission check — whenever those two pass, the reservation
is created storing exactly the requested party size, time and date,
with no check that the party size is at least one or that the date/time
pair is a configured slot. -/
theorem create_checks_only_window_and_capacity (s : Settings) (db : DB)
    (newId : String) (now : Nat) (input : CreateReservationInput)
    (hw : isDateWithinBookingWindow s now input.date = true)
    (hc : bookedCountFor db input.date input.time input.seatingType +
      input.partySize ≤ getCapacity s input.seatingType) :
    createReservation s db newId now input =
      .ok (newId, mkReservationDoc now input,
        { db with
          reservations := db.reservations ++ [(newId, mkReservationDoc now input)]
          slotLocks := setSlotLock db.slotLocks
            (slotLockKey input.date input.time input.seatingType)
            { lastReservationId := newId, lastReservationAt := now } })
    ∧ (mkReservationDoc now input).partySize = some input.partySize
    ∧ (mkReservationDoc now input).time = input.time
    ∧ (mkReservationDoc now input).date = input.date := by
  refine ⟨?_, rfl, rfl, rfl⟩
  simp only [createReservation, checkAndReserveSlot]
  rw [if_neg (by rw [hw]; decide), if_neg (not_lt.mpr (by omega))]

/-- Witness for the amended C7: the invariant-violating input (party
size zero, unconfigured time) passes both checks on the empty store and
is committed as given. -/
theorem create_checks_only_window_and_capacity_witness :
    createReservation sampleSettings emptyDB "r1" 0 badInput =
      .ok ("r1", mkReservationDoc 0 badInput,
        { emptyDB with
          reservations := emptyDB.reservations ++ [("r1", mkReservationDoc 0 badInput)]
          slotLocks := setSlotLock emptyDB.slotLocks
            (slotLockKey badInput.date badInput.time badInput.seatingType)
            { lastReservationId := "r1", lastReservationAt := 0 } })
    ∧ (mkReservationDoc 0 badInput).partySize = some badInput.partySize
    ∧ (mkReservationDoc 0 badInput).time = badInput.time
    ∧ (mkReservationDoc 0 badInput).date = badInput.date :=
  create_checks_only_window_and_capacity sampleSettings emptyDB "r1" 0 badInput
    (by decide) (by decide)

/-- C10: a stored document whose `partySize` field is missing or zero
contributes exactly zero to the booked count, in both the availability
read and the transactional reserve path: appending such a document
changes neither the computed availability nor the outcome shape of
`checkAndReserveSlot`. -/
theorem malformed_partySize_neutral (s : Settings) (db : DB) (id : String)
    (doc : ReservationDoc) (date : Nat) (time : String) (st : SeatingType)
    (newId : String) (now : Nat) (partySize : Int) (rdata : ReservationDoc)
    (hmal : doc.partySize = none ∨ doc.partySize = some 0) :
    bookedCountFor { db with reservations := db.reservations ++ [(id, doc)] }
        date time st = bookedCountFor db date time st
    ∧ calculateSlotAvailability s
        { db with reservations := db.reservations ++ [(id, doc)] } date time st =
      calculateSlotAvailability s db date time st
    ∧ resultShape (checkAndReserveSlot s
        { db with reservations := db.reservations ++ [(id, doc)] }
        newId now date time st partySize rdata) =
      resultShape (checkAndReserveSlot s db newId now date time st partySize rdata) := by
  have hb : bookedCountFor { db with reservations := db.reservations ++ [(id, doc)] }
      date time st = bookedCountFor db date time st := by
    show bookedCountList (db.reservations ++ [(id, doc)]) date time st =
      bookedCountList db.reservations date time st
    rw [bookedCountList_append, bookedCountList_singleton]
    rcases hmal with h | h <;> rw [h] <;> simp [partySizeOrZero]
  refine ⟨hb, ?_, ?_⟩
  · simp only [calculateSlotAvailability]
    rw [hb]
  · simp only [checkAndReserveSlot]
    rw [hb]
    by_cases hcnd : getCapacity s st - bookedCountFor db date time st < partySize
    · rw [if_pos hcnd, if_pos hcnd]
    · rw [if_neg hcnd, if_neg hcnd]
      rfl

/-- Witness for C10: appending a document with a missing `partySize` to
the populated sample store changes neither the availability answer nor
the reserve decision for the slot. -/
theorem malformed_partySize_neutral_witness :
    bookedCountFor { db6 with reservations := db6.reservations ++ [("r2", malformedDoc)] }
        (5 * msPerDay) "19:00" .balcony =
      bookedCountFor db6 (5 * msPerDay) "19:00" .balcony
    ∧ calculateSlotAvailability sampleSettings
        { db6 with reservations := db6.reservations ++ [("r2", malformedDoc)] }
        (5 * msPerDay) "19:00" .balcony =
      calculateSlotAvailability sampleSettings db6 (5 * msPerDay) "19:00" .balcony
    ∧ resultShape (checkAndReserveSlot sampleSettings
        { db6 with reservations := db6.reservations ++ [("r2", malformedDoc)] }
        "r3" 0 (5 * msPerDay) "19:00" .balcony 4 balconyDoc6) =
      resultShape (checkAndReserveSlot sampleSettings db6 "r3" 0 (5 * msPerDay)
        "19:00" .balcony 4 balconyDoc6) :=
  malformed_partySize_neutral sampleSettings db6 "r2" malformedDoc (5 * msPerDay)
    "19:00" .balcony "r3" 0 4 balconyDoc6 (Or.inl rfl)

end Reservations
